import Mathlib

/-!
Verification of the lead-qualification and geolocation-recommendation
pipeline of the AI-powered chatbot CRM backend.

The definitions below are a shallow embedding of `src/lead_manager.py` and
`src/main.py`.  Python floats are modelled by real numbers (`ℝ`); Python
dicts carrying geo data are modelled by association lists; the standard
library random generator is modelled by a record of the values it draws.
-/

open Real List

set_option maxHeartbeats 1000000

/-- Model of Python `math.radians`: degrees to radians. -/
noncomputable def radians (x : ℝ) : ℝ := x * (Real.pi / 180)

/-- Model of Python `math.atan2 y x` (real-number semantics). -/
noncomputable def atan2 (y x : ℝ) : ℝ :=
  if 0 < x then Real.arctan (y / x)
  else if x < 0 then
    (if 0 ≤ y then Real.arctan (y / x) + Real.pi else Real.arctan (y / x) - Real.pi)
  else
    (if 0 < y then Real.pi / 2 else if y < 0 then -(Real.pi / 2) else 0)

/-- Embedding of `lead_manager.calculate_distance` (src/lead_manager.py,
lines 157-190): Haversine great-circle distance in kilometres with Earth
radius 6371.0 km. -/
noncomputable def calculate_distance (lat1 lon1 lat2 lon2 : ℝ) : ℝ :=
  let R : ℝ := 6371.0
  let lat1_rad := radians lat1
  let lon1_rad := radians lon1
  let lat2_rad := radians lat2
  let lon2_rad := radians lon2
  let dlon := lon2_rad - lon1_rad
  let dlat := lat2_rad - lat1_rad
  let a := Real.sin (dlat / 2) ^ 2 +
    Real.cos lat1_rad * Real.cos lat2_rad * Real.sin (dlon / 2) ^ 2
  let c := 2 * atan2 (Real.sqrt a) (Real.sqrt (1 - a))
  R * c

lemma atan2_nonneg {y x : ℝ} (hy : 0 ≤ y) : 0 ≤ atan2 y x := by
  unfold atan2
  have hπ := Real.pi_pos
  have hlow := Real.neg_pi_div_two_lt_arctan (y / x)
  have hmono : ∀ z : ℝ, 0 ≤ z → 0 ≤ Real.arctan z := fun z hz => by
    simpa [Real.arctan_zero] using Real.arctan_strictMono.monotone hz
  split_ifs <;>
    first
      | exact hmono _ (div_nonneg hy (le_of_lt ‹0 < x›))
      | exact absurd hy ‹¬0 ≤ y›
      | linarith


/-- A named Chennai micro-area with its base coordinate
(src/lead_manager.py, lines 21-36, the `areas` entry of `CHENNAI_LOCATION`). -/
structure NamedArea where
  name : String
  latitude : ℝ
  longitude : ℝ

/-- The `areas` list of `CHENNAI_LOCATION` (src/lead_manager.py, lines 27-35). -/
noncomputable def CHENNAI_AREAS : List NamedArea :=
  [⟨"Ambattur", 13.1143, 80.1548⟩,
   ⟨"Anna Nagar", 13.0891, 80.2107⟩,
   ⟨"T Nagar", 13.0418, 80.2341⟩,
   ⟨"Velachery", 12.9815, 80.2180⟩,
   ⟨"Adyar", 13.0012, 80.2565⟩,
   ⟨"Porur", 13.0359, 80.1567⟩,
   ⟨"Guindy", 13.0070, 80.2143⟩]

/-- The city/region/country constants of `CHENNAI_LOCATION`
(src/lead_manager.py, lines 21-26). -/
def CHENNAI_CITY : String := "Chennai"

def CHENNAI_REGION : String := "Tamil Nadu"

def CHENNAI_COUNTRY : String := "India"

/-- Placeholder area used only as the `List.getD` default in statements. -/
def dummyArea : NamedArea := ⟨"", 0, 0⟩

/-- The loop of `get_nearest_area` (src/lead_manager.py, lines 97-105):
linear scan keeping the running minimum distance and its area name.
The accumulator `none` models the initial `min_distance = float('inf')`
(every real distance compares below it). -/
noncomputable def scanAreas (lat lon : ℝ) :
    List NamedArea → Option ℝ → String → String
  | [], _, best => best
  | a :: rest, m, best =>
    let d := calculate_distance lat lon a.latitude a.longitude
    match m with
    | none => scanAreas lat lon rest (some d) a.name
    | some mv =>
      if d < mv then scanAreas lat lon rest (some d) a.name
      else scanAreas lat lon rest (some mv) best

/-- Embedding of `get_nearest_area` (src/lead_manager.py, lines 89-110).
The Python function receives the raw `"lat,lon"` string; parsing it can
fail (wrong arity or non-float parts) and any error returns `"Ambattur"`
via the `except` branch.  The embedding takes the parse result, with
`none` modelling every unparseable input string. -/
noncomputable def get_nearest_area : Option (ℝ × ℝ) → String
  | none => "Ambattur"
  | some (lat, lon) => scanAreas lat lon CHENNAI_AREAS none "Ambattur"

lemma sin_sq_sub_symm (p q : ℝ) :
    Real.sin ((p - q) / 2) ^ 2 = Real.sin ((q - p) / 2) ^ 2 := by
  have h : (p - q) / 2 = -((q - p) / 2) := by ring
  rw [h, Real.sin_neg]
  ring

/-- C7: the Haversine distance of a point to itself is `0`; the distance is
symmetric in its two points; and every distance is non-negative. -/
theorem calculate_distance_point_symm_nonneg :
    (∀ lat lon : ℝ, calculate_distance lat lon lat lon = 0) ∧
    (∀ lat1 lon1 lat2 lon2 : ℝ,
      calculate_distance lat1 lon1 lat2 lon2 = calculate_distance lat2 lon2 lat1 lon1) ∧
    (∀ lat1 lon1 lat2 lon2 : ℝ, 0 ≤ calculate_distance lat1 lon1 lat2 lon2) := by
  refine ⟨?_, ?_, ?_⟩
  · intro lat lon
    simp only [calculate_distance, sub_self, zero_div, Real.sin_zero]
    norm_num [atan2, Real.sqrt_one, Real.arctan_zero]
  · intro lat1 lon1 lat2 lon2
    simp only [calculate_distance]
    rw [sin_sq_sub_symm (radians lat2) (radians lat1),
        sin_sq_sub_symm (radians lon2) (radians lon1),
        mul_comm (Real.cos (radians lat1)) (Real.cos (radians lat2))]
  · intro lat1 lon1 lat2 lon2
    simp only [calculate_distance]
    have h := atan2_nonneg (x := Real.sqrt (1 -
      (Real.sin ((radians lat2 - radians lat1) / 2) ^ 2 +
        Real.cos (radians lat1) * Real.cos (radians lat2) *
          Real.sin ((radians lon2 - radians lon1) / 2) ^ 2)))
      (Real.sqrt_nonneg (Real.sin ((radians lat2 - radians lat1) / 2) ^ 2 +
        Real.cos (radians lat1) * Real.cos (radians lat2) *
          Real.sin ((radians lon2 - radians lon1) / 2) ^ 2))
    nlinarith [h]

/-- The distance from `(lat, lon)` to an area's base coordinate, as computed
inside the loop of `get_nearest_area`. -/
noncomputable def areaDist (lat lon : ℝ) (a : NamedArea) : ℝ :=
  calculate_distance lat lon a.latitude a.longitude

lemma scanAreas_keep (lat lon : ℝ) :
    ∀ (l : List NamedArea) (m : ℝ) (best : String),
      (∀ a ∈ l, m ≤ areaDist lat lon a) →
      scanAreas lat lon l (some m) best = best
  | [], _, _, _ => rfl
  | a :: rest, m, best, h => by
    have ha := h a (List.mem_cons_self a rest)
    simp only [scanAreas, areaDist] at ha ⊢
    rw [if_neg (not_lt.mpr ha)]
    exact scanAreas_keep lat lon rest m best fun x hx => h x (List.mem_cons_of_mem a hx)

lemma scanAreas_min (lat lon : ℝ) :
    ∀ (l : List NamedArea) (m : ℝ) (best : String),
      (∃ x ∈ l, areaDist lat lon x < m) →
      ∃ i, i < l.length ∧
        scanAreas lat lon l (some m) best = (l.getD i dummyArea).name ∧
        areaDist lat lon (l.getD i dummyArea) < m ∧
        (∀ j, j < l.length →
          areaDist lat lon (l.getD i dummyArea) ≤ areaDist lat lon (l.getD j dummyArea)) ∧
        (∀ j, j < i →
          areaDist lat lon (l.getD i dummyArea) < areaDist lat lon (l.getD j dummyArea)) := by
  intro l
  induction l with
  | nil =>
    intro m best h
    obtain ⟨x, hx, _⟩ := h
    exact absurd hx (List.not_mem_nil x)
  | cons a rest ih =>
    intro m best h
    by_cases hd : areaDist lat lon a < m
    · have heq : scanAreas lat lon (a :: rest) (some m) best =
          scanAreas lat lon rest (some (areaDist lat lon a)) a.name := by
        have hd' : calculate_distance lat lon a.latitude a.longitude < m := hd
        simp only [scanAreas]
        rw [if_pos hd']
        rfl
      by_cases hex : ∃ x ∈ rest, areaDist lat lon x < areaDist lat lon a
      · obtain ⟨i, hi, hscan, hlt, hmin, hfirst⟩ := ih (areaDist lat lon a) a.name hex
        refine ⟨i + 1, Nat.succ_lt_succ hi, ?_, ?_, ?_, ?_⟩
        · rw [heq, hscan]
          simp [List.getD_cons_succ]
        · simpa [List.getD_cons_succ] using lt_trans hlt hd
        · intro j hj
          rcases j with _ | k
          · simpa [List.getD_cons_zero, List.getD_cons_succ] using le_of_lt hlt
          · simpa [List.getD_cons_succ] using hmin k (Nat.lt_of_succ_lt_succ hj)
        · intro j hj
          rcases j with _ | k
          · simpa [List.getD_cons_zero, List.getD_cons_succ] using hlt
          · simpa [List.getD_cons_succ] using hfirst k (Nat.lt_of_succ_lt_succ hj)
      · push_neg at hex
        refine ⟨0, Nat.succ_pos _, ?_, ?_, ?_, ?_⟩
        · rw [heq, scanAreas_keep lat lon rest (areaDist lat lon a) a.name hex]
          simp [List.getD_cons_zero]
        · simpa [List.getD_cons_zero] using hd
        · intro j hj
          rcases j with _ | k
          · simp [List.getD_cons_zero]
          · simp only [List.getD_cons_zero, List.getD_cons_succ]
            have hk : k < rest.length := Nat.lt_of_succ_lt_succ hj
            rw [List.getD_eq_get rest dummyArea hk]
            exact hex _ (List.get_mem rest k hk)
        · intro j hj
          exact absurd hj (Nat.not_lt_zero j)
    · have heq : scanAreas lat lon (a :: rest) (some m) best =
          scanAreas lat lon rest (some m) best := by
        have hd' : ¬calculate_distance lat lon a.latitude a.longitude < m := hd
        simp only [scanAreas]
        rw [if_neg hd']
      obtain ⟨x, hx, hxm⟩ := h
      have hxrest : x ∈ rest := by
        rcases List.mem_cons.mp hx with rfl | hr
        · exact absurd hxm hd
        · exact hr
      obtain ⟨i, hi, hscan, hlt, hmin, hfirst⟩ := ih m best ⟨x, hxrest, hxm⟩
      have ham : m ≤ areaDist lat lon a := not_lt.mp hd
      refine ⟨i + 1, Nat.succ_lt_succ hi, ?_, ?_, ?_, ?_⟩
      · rw [heq, hscan]
        simp [List.getD_cons_succ]
      · simpa [List.getD_cons_succ] using hlt
      · intro j hj
        rcases j with _ | k
        · simpa [List.getD_cons_zero, List.getD_cons_succ] using
            le_of_lt (lt_of_lt_of_le hlt ham)
        · simpa [List.getD_cons_succ] using hmin k (Nat.lt_of_succ_lt_succ hj)
      · intro j hj
        rcases j with _ | k
        · simpa [List.getD_cons_zero, List.getD_cons_succ] using lt_of_lt_of_le hlt ham
        · simpa [List.getD_cons_succ] using hfirst k (Nat.lt_of_succ_lt_succ hj)

lemma scanAreas_nonempty (lat lon : ℝ) (l : List NamedArea) (hne : l ≠ []) :
    ∃ i, i < l.length ∧
      scanAreas lat lon l none "Ambattur" = (l.getD i dummyArea).name ∧
      (∀ j, j < l.length →
        areaDist lat lon (l.getD i dummyArea) ≤ areaDist lat lon (l.getD j dummyArea)) ∧
      (∀ j, j < i →
        areaDist lat lon (l.getD i dummyArea) < areaDist lat lon (l.getD j dummyArea)) := by
  rcases l with _ | ⟨a, rest⟩
  · exact absurd rfl hne
  have heq : scanAreas lat lon (a :: rest) none "Ambattur" =
      scanAreas lat lon rest (some (areaDist lat lon a)) a.name := by
    simp only [scanAreas, areaDist]
  by_cases hex : ∃ x ∈ rest, areaDist lat lon x < areaDist lat lon a
  · obtain ⟨i, hi, hscan, hlt, hmin, hfirst⟩ :=
      scanAreas_min lat lon rest (areaDist lat lon a) a.name hex
    refine ⟨i + 1, Nat.succ_lt_succ hi, ?_, ?_, ?_⟩
    · rw [heq, hscan]
      simp [List.getD_cons_succ]
    · intro j hj
      rcases j with _ | k
      · simpa [List.getD_cons_zero, List.getD_cons_succ] using le_of_lt hlt
      · simpa [List.getD_cons_succ] using hmin k (Nat.lt_of_succ_lt_succ hj)
    · intro j hj
      rcases j with _ | k
      · simpa [List.getD_cons_zero, List.getD_cons_succ] using hlt
      · simpa [List.getD_cons_succ] using hfirst k (Nat.lt_of_succ_lt_succ hj)
  · push_neg at hex
    refine ⟨0, Nat.succ_pos _, ?_, ?_, ?_⟩
    · rw [heq, scanAreas_keep lat lon rest (areaDist lat lon a) a.name hex]
      simp [List.getD_cons_zero]
    · intro j hj
      rcases j with _ | k
      · simp [List.getD_cons_zero]
      · simp only [List.getD_cons_zero, List.getD_cons_succ]
        have hk : k < rest.length := Nat.lt_of_succ_lt_succ hj
        rw [List.getD_eq_get rest dummyArea hk]
        exact hex _ (List.get_mem rest k hk)
    · intro j hj
      exact absurd hj (Nat.not_lt_zero j)

/-- C4: for every parseable `"lat,lon"` input, `get_nearest_area` returns the
name of the catalog area at the first index attaining the minimal Haversine
distance to the parsed point (so an exact tie is won by the earlier area),
the catalog has exactly seven areas, and every unparseable input yields the
default `"Ambattur"`. -/
theorem get_nearest_area_first_argmin :
    (∀ lat lon : ℝ, ∃ i, i < CHENNAI_AREAS.length ∧
      get_nearest_area (some (lat, lon)) = (CHENNAI_AREAS.getD i dummyArea).name ∧
      (∀ j, j < CHENNAI_AREAS.length →
        areaDist lat lon (CHENNAI_AREAS.getD i dummyArea) ≤
          areaDist lat lon (CHENNAI_AREAS.getD j dummyArea)) ∧
      (∀ j, j < i →
        areaDist lat lon (CHENNAI_AREAS.getD i dummyArea) <
          areaDist lat lon (CHENNAI_AREAS.getD j dummyArea))) ∧
    get_nearest_area none = "Ambattur" ∧
    CHENNAI_AREAS.length = 7 := by
  refine ⟨?_, rfl, by simp [CHENNAI_AREAS]⟩
  intro lat lon
  have hne : CHENNAI_AREAS ≠ [] := by simp [CHENNAI_AREAS]
  simpa [get_nearest_area] using scanAreas_nonempty lat lon CHENNAI_AREAS hne

/-- A product location of the fixed catalog (src/lead_manager.py, lines 39-45). -/
structure ProductLocation where
  name : String
  type : String
  latitude : ℝ
  longitude : ℝ
  address : String

/-- The fixed product catalog `PRODUCT_LOCATIONS` (src/lead_manager.py, lines 39-45). -/
noncomputable def PRODUCT_LOCATIONS : List ProductLocation :=
  [⟨"Chennai Office Solutions", "office_supplies", 13.1133, 80.1538,
      "23 Ambattur Industrial Estate, Chennai"⟩,
   ⟨"TechHub Chennai", "electronics", 13.0881, 80.2117, "45 Anna Nagar East, Chennai"⟩,
   ⟨"Mega Retail Center", "retail", 13.0408, 80.2351, "78 T Nagar Main Road, Chennai"⟩,
   ⟨"Chennai Business Park", "office_space", 13.0349, 80.1577, "120 Porur Highway, Chennai"⟩,
   ⟨"IT Solutions Center", "software", 13.0060, 80.2153, "56 Guindy Industrial Area, Chennai"⟩]

/-- Model of Python `round(x, 2)` on real numbers: rounding to two decimal
places.  (Python rounds ties to even on binary floats; on the real-number
model ties are measure-zero and the rounding used here is the standard
`round`, which agrees everywhere else and is monotone.) -/
noncomputable def round2 (x : ℝ) : ℝ := ((round (x * 100) : ℤ) : ℝ) / 100

/-- A catalog entry copy annotated with its `distance_km` value, as built by
the loop of `find_nearby_products` (src/lead_manager.py, lines 206-215). -/
structure NearbyProduct where
  location : ProductLocation
  distance_km : ℝ

/-- The list built by the filtering loop of `find_nearby_products`
(src/lead_manager.py, lines 204-215), in catalog order, before sorting. -/
noncomputable def nearbyCandidates (lat lon max_distance : ℝ) : List NearbyProduct :=
  PRODUCT_LOCATIONS.filterMap fun loc =>
    if calculate_distance lat lon loc.latitude loc.longitude ≤ max_distance then
      some ⟨loc, round2 (calculate_distance lat lon loc.latitude loc.longitude)⟩
    else none

/-- The sort key relation of `nearby.sort(key=lambda x: x["distance_km"])`
(src/lead_manager.py, line 218). -/
def byDistance (x y : NearbyProduct) : Prop := x.distance_km ≤ y.distance_km

noncomputable instance : DecidableRel byDistance := fun a b =>
  inferInstanceAs (Decidable (a.distance_km ≤ b.distance_km))

instance : IsTotal NearbyProduct byDistance :=
  ⟨fun a b => le_total a.distance_km b.distance_km⟩

instance : IsTrans NearbyProduct byDistance :=
  ⟨fun _ _ _ h1 h2 => le_trans h1 h2⟩

/-- Embedding of `find_nearby_products` (src/lead_manager.py, lines 193-220).
Python `list.sort` is a stable sort; `List.insertionSort` is stable, so it
computes the same list. -/
noncomputable def find_nearby_products (lat lon : ℝ) (max_distance : ℝ) :
    List NearbyProduct :=
  List.insertionSort byDistance (nearbyCandidates lat lon max_distance)

lemma filter_orderedInsert_eq (k : ℝ) (a : NearbyProduct) :
    ∀ l : List NearbyProduct,
      (List.orderedInsert byDistance a l).filter (fun e => decide (e.distance_km = k)) =
      ((a :: l).filter fun e => decide (e.distance_km = k))
  | [] => rfl
  | b :: l => by
    by_cases hab : byDistance a b
    · rw [List.orderedInsert_of_le byDistance l hab]
    · have hba : b.distance_km < a.distance_km := not_le.mp hab
      have hrec := filter_orderedInsert_eq k a l
      have hoi : List.orderedInsert byDistance a (b :: l) =
          b :: List.orderedInsert byDistance a l := by
        simp only [List.orderedInsert, if_neg hab]
      rw [hoi]
      by_cases hbk : b.distance_km = k
      · have hak : ¬a.distance_km = k := fun h => absurd (hbk ▸ h) (ne_of_gt hba)
        simp [List.filter_cons, hbk, hak, hrec]
      · simp [List.filter_cons, hbk, hrec]

lemma filter_insertionSort_eq (k : ℝ) :
    ∀ l : List NearbyProduct,
      (List.insertionSort byDistance l).filter (fun e => decide (e.distance_km = k)) =
      (l.filter fun e => decide (e.distance_km = k))
  | [] => rfl
  | a :: l => by
    have h1 := filter_orderedInsert_eq k a (List.insertionSort byDistance l)
    have h2 := filter_insertionSort_eq k l
    calc (List.insertionSort byDistance (a :: l)).filter
          (fun e => decide (e.distance_km = k))
        = ((a :: List.insertionSort byDistance l).filter
            fun e => decide (e.distance_km = k)) := h1
      _ = (a :: l).filter (fun e => decide (e.distance_km = k)) := by
          by_cases hak : a.distance_km = k <;> simp [List.filter_cons, hak, h2]

/-- The full correctness property of the nearby-product matcher, stated for
one coordinate and radius (used by the C3 theorem and its witness). -/
noncomputable def NearbyProductsCorrect (lat lon maxd : ℝ) : Prop :=
  (find_nearby_products lat lon maxd).length ≤ PRODUCT_LOCATIONS.length ∧
  (∀ e : NearbyProduct, e ∈ find_nearby_products lat lon maxd ↔
    ∃ p ∈ PRODUCT_LOCATIONS,
      calculate_distance lat lon p.latitude p.longitude ≤ maxd ∧
      e = ⟨p, round2 (calculate_distance lat lon p.latitude p.longitude)⟩) ∧
  List.Pairwise byDistance (find_nearby_products lat lon maxd) ∧
  (∀ k : ℝ, ((find_nearby_products lat lon maxd).filter fun e => decide (e.distance_km = k)) =
    ((nearbyCandidates lat lon maxd).filter fun e => decide (e.distance_km = k))) ∧
  ((∀ p ∈ PRODUCT_LOCATIONS, maxd < calculate_distance lat lon p.latitude p.longitude) →
    find_nearby_products lat lon maxd = [])

/-- C3: for every coordinate and non-negative radius, `find_nearby_products`
returns exactly the catalog entries within the radius (by Haversine
distance), each annotated with the distance rounded to two decimals, sorted
non-decreasing by the annotated distance, with ties keeping catalog order
(the sort is stable: filtering the output to any fixed key value yields the
catalog-order candidate list), an empty list when nothing matches, and never
more entries than the catalog has. -/
theorem find_nearby_products_correct (lat lon maxd : ℝ) (hmaxd : 0 ≤ maxd) :
    NearbyProductsCorrect lat lon maxd := by
  refine ⟨?_, ?_, ?_, ?_, ?_⟩
  · rw [find_nearby_products, List.length_insertionSort]
    exact List.length_filterMap_le _ _
  · intro e
    simp only [find_nearby_products, List.mem_insertionSort, nearbyCandidates,
      List.mem_filterMap]
    constructor
    · rintro ⟨p, hp, hf⟩
      by_cases hd : calculate_distance lat lon p.latitude p.longitude ≤ maxd
      · rw [if_pos hd] at hf
        exact ⟨p, hp, hd, (Option.some.inj hf).symm⟩
      · rw [if_neg hd] at hf
        exact absurd hf (Option.noConfusion)
    · rintro ⟨p, hp, hd, rfl⟩
      exact ⟨p, hp, by rw [if_pos hd]⟩
  · exact List.sorted_insertionSort byDistance _
  · intro k
    exact filter_insertionSort_eq k _
  · intro hall
    have hcand : nearbyCandidates lat lon maxd = [] := by
      rw [nearbyCandidates, List.filterMap_eq_nil]
      intro p hp
      rw [if_neg (not_le.mpr (hall p hp))]
    rw [find_nearby_products, hcand]
    rfl

/-- Witness for C3 at the concrete input `(13, 80)` with radius `0`. -/
theorem find_nearby_products_correct_witness :
    (0 : ℝ) ≤ 0 ∧ NearbyProductsCorrect 13 80 0 :=
  ⟨le_refl 0, find_nearby_products_correct 13 80 0 (le_refl 0)⟩

/-- A value stored in a geo-IP dict.  Provider dict values are strings; the
`"loc"` value is a `"lat,lon"` string.  `vloc` represents every string that
splits on `","` into exactly two float literals (the parseable case, kept as
the parsed pair); `vstr` represents every other string. -/
inductive Val where
  | vstr (s : String)
  | vloc (lat lon : ℝ)

/-- A Python dict of geo-IP data, as an association list. -/
def GeoData := List (String × Val)

/-- Model of the Python dict assignment `d[key] = v`: overwrite the (unique)
existing entry in place, or append a new one. -/
def setKey : GeoData → String → Val → GeoData
  | [], k, v => [(k, v)]
  | kv :: rest, k, v =>
    if kv.1 == k then (k, v) :: rest else kv :: setKey rest k v

lemma lookup_setKey (k : String) (v : Val) :
    ∀ d : GeoData, List.lookup k (setKey d k v) = some v
  | [] => by simp [setKey, List.lookup]
  | kv :: rest => by
    by_cases h : kv.1 == k
    · simp only [setKey, if_pos h, List.lookup, beq_self_eq_true]
    · have hne : (kv.1 == k) = false := by
        simpa using h
      have hne' : (k == kv.1) = false := by
        rw [beq_eq_false_iff_ne] at hne ⊢
        exact fun hk => hne hk.symm
      simp only [setKey, hne, Bool.false_eq_true, if_false, List.lookup, hne']
      exact lookup_setKey k v rest

/-- The values drawn from Python's `random` module during one call of
`generate_fake_ip_info` (src/lead_manager.py, lines 113-154), in draw order.
The first nine fields serve the `use_default_location=True` branch
(`random.choice` over the seven areas, two `random.uniform(-0.01, 0.01)`
offsets, and the `randint` draws for ip/hostname/org/postal); the remaining
fields serve the `False` branch. -/
structure RandDraws where
  areaIdx : Fin 7 := 0
  latOff : ℝ := 0
  lonOff : ℝ := 0
  o1 : ℕ := 0
  o2 : ℕ := 0
  o3 : ℕ := 0
  hostNum : ℕ := 0
  asn : ℕ := 0
  postalNum : ℕ := 0
  f0 : ℕ := 0
  f1 : ℕ := 0
  f2 : ℕ := 0
  f3 : ℕ := 0
  fHostNum : ℕ := 0
  fLat : ℝ := 0
  fLon : ℝ := 0
  fAsn : ℕ := 0
  fPostal : ℕ := 0

/-- Embedding of `generate_fake_ip_info` (src/lead_manager.py, lines
113-154), with the random draws supplied by `r`. -/
noncomputable def generate_fake_ip_info (use_default_location : Bool) (r : RandDraws) :
    GeoData :=
  if use_default_location then
    let area := CHENNAI_AREAS.getD (r.areaIdx : ℕ) dummyArea
    [("ip", Val.vstr ("103." ++ toString r.o1 ++ "." ++ toString r.o2 ++ "." ++
        toString r.o3)),
     ("hostname", Val.vstr ("host-" ++ toString r.hostNum ++ ".airtel.net.in")),
     ("city", Val.vstr CHENNAI_CITY),
     ("region", Val.vstr CHENNAI_REGION),
     ("country", Val.vstr CHENNAI_COUNTRY),
     ("loc", Val.vloc (area.latitude + r.latOff) (area.longitude + r.lonOff)),
     ("org", Val.vstr ("AS" ++ toString r.asn ++ " Bharti Airtel Ltd.")),
     ("postal", Val.vstr ("6000" ++ toString r.postalNum)),
     ("timezone", Val.vstr "Asia/Kolkata"),
     ("area", Val.vstr area.name)]
  else
    [("ip", Val.vstr (toString r.f0 ++ "." ++ toString r.f1 ++ "." ++
        toString r.f2 ++ "." ++ toString r.f3)),
     ("hostname", Val.vstr ("host-" ++ toString r.fHostNum ++ ".example.com")),
     ("city", Val.vstr "Random City"),
     ("region", Val.vstr "Random Region"),
     ("country", Val.vstr "Random Country"),
     ("loc", Val.vloc r.fLat r.fLon),
     ("org", Val.vstr ("AS" ++ toString r.fAsn ++ " Example ISP")),
     ("postal", Val.vstr (toString r.fPostal)),
     ("timezone", Val.vstr "UTC")]

/-- Behaviour of the external ipinfo call chain inside the `try` block of
`get_ip_info`: either some step raises (`exn` — network error, non-200
status, library failure), or the chain produces the dict `details.all`. -/
inductive ProviderOutcome where
  | exn
  | ok (data : List (String × Val))

/-- Embedding of `get_ip_info` (src/lead_manager.py, lines 51-86).  On a
successful provider call the `"area"` key is set from the `"loc"` value
(`get_nearest_area` when a comma is present, the `"Ambattur"` default
otherwise); on any exception the synthetic fallback record is returned. -/
noncomputable def get_ip_info (ip : Option String) (outcome : ProviderOutcome)
    (r : RandDraws) : GeoData :=
  match outcome with
  | .ok ip_data =>
    match List.lookup "loc" ip_data with
    | some (.vloc la lo) =>
      setKey ip_data "area" (Val.vstr (get_nearest_area (some (la, lo))))
    | some (.vstr s) =>
      if s.contains ',' then
        setKey ip_data "area" (Val.vstr (get_nearest_area none))
      else
        setKey ip_data "area" (Val.vstr "Ambattur")
    | none => setKey ip_data "area" (Val.vstr "Ambattur")
  | .exn => generate_fake_ip_info true r

/-- C2: for every optional IP input and every provider behaviour (exception,
or a response with any dict shape, including a missing or malformed
coordinate field), `get_ip_info` returns a record containing an `"area"`
field.  The embedding is a total function, reflecting that every failure
path of the Python code is caught and degraded to a default. -/
theorem get_ip_info_never_fails_has_area :
    ∀ (ip : Option String) (o : ProviderOutcome) (r : RandDraws),
      ∃ s : String, List.lookup "area" (get_ip_info ip o r) = some (Val.vstr s) := by
  intro ip o r
  cases o with
  | exn =>
    exact ⟨(CHENNAI_AREAS.getD (r.areaIdx : ℕ) dummyArea).name, rfl⟩
  | ok data =>
    cases hv : List.lookup "loc" data with
    | none =>
      exact ⟨"Ambattur", by simp [get_ip_info, hv, lookup_setKey]⟩
    | some v =>
      cases v with
      | vstr s =>
        cases hc : s.contains ',' with
        | false =>
          exact ⟨"Ambattur", by simp [get_ip_info, hv, hc, lookup_setKey]⟩
        | true =>
          exact ⟨get_nearest_area none, by simp [get_ip_info, hv, hc, lookup_setKey]⟩
      | vloc la lo =>
        exact ⟨get_nearest_area (some (la, lo)), by simp [get_ip_info, hv, lookup_setKey]⟩

lemma fake_area_jitter (r : RandDraws) (h1 : |r.latOff| ≤ 0.01) (h2 : |r.lonOff| ≤ 0.01) :
    ∃ a ∈ CHENNAI_AREAS,
      List.lookup "area" (generate_fake_ip_info true r) = some (Val.vstr a.name) ∧
      ∃ la lo, List.lookup "loc" (generate_fake_ip_info true r) = some (Val.vloc la lo) ∧
        |la - a.latitude| ≤ 0.01 ∧ |lo - a.longitude| ≤ 0.01 := by
  have hlen : CHENNAI_AREAS.length = 7 := by simp [CHENNAI_AREAS]
  have hidx : (r.areaIdx : ℕ) < CHENNAI_AREAS.length := by
    rw [hlen]
    exact r.areaIdx.isLt
  refine ⟨CHENNAI_AREAS.getD (r.areaIdx : ℕ) dummyArea, ?_, rfl, _, _, rfl, ?_, ?_⟩
  · rw [List.getD_eq_getElem CHENNAI_AREAS dummyArea hidx]
    exact List.getElem_mem hidx
  · simpa using h1
  · simpa using h2

/-- C6: for every outcome of the random draws (within the ranges that
`random.uniform(-0.01, 0.01)` guarantees), the synthetic fallback record
names one of the seven fixed areas, and the coordinate in its `"loc"` field
differs from that area's base coordinate by at most `0.01` degrees on each
axis. -/
theorem generate_fake_ip_info_bounded_jitter :
    ∀ r : RandDraws, |r.latOff| ≤ 0.01 → |r.lonOff| ≤ 0.01 →
      ∃ a ∈ CHENNAI_AREAS,
        List.lookup "area" (generate_fake_ip_info true r) = some (Val.vstr a.name) ∧
        ∃ la lo, List.lookup "loc" (generate_fake_ip_info true r) =
            some (Val.vloc la lo) ∧
          |la - a.latitude| ≤ 0.01 ∧ |lo - a.longitude| ≤ 0.01 :=
  fun r h1 h2 => fake_area_jitter r h1 h2

/-- Concrete all-zero draw of the random values, used by witnesses. -/
def rand0 : RandDraws := {}

/-- Witness for C6 at the concrete draw `rand0`. -/
theorem generate_fake_ip_info_bounded_jitter_witness :
    |rand0.latOff| ≤ 0.01 ∧ |rand0.lonOff| ≤ 0.01 ∧
    ∃ a ∈ CHENNAI_AREAS,
      List.lookup "area" (generate_fake_ip_info true rand0) = some (Val.vstr a.name) ∧
      ∃ la lo, List.lookup "loc" (generate_fake_ip_info true rand0) =
          some (Val.vloc la lo) ∧
        |la - a.latitude| ≤ 0.01 ∧ |lo - a.longitude| ≤ 0.01 := by
  have hb : |rand0.latOff| ≤ 0.01 := by
    simp [rand0, abs_of_nonneg]
    norm_num
  have hb2 : |rand0.lonOff| ≤ 0.01 := by
    simp [rand0, abs_of_nonneg]
    norm_num
  exact ⟨hb, hb2, generate_fake_ip_info_bounded_jitter rand0 hb hb2⟩

/-- A successful provider response that lacks the `"loc"` coordinate field. -/
def provider_no_loc : List (String × Val) := [("ip", Val.vstr "8.8.8.8")]

/-- C5 counterexample: when the provider call succeeds but the response has
no `"loc"` field, `get_ip_info` does NOT return a synthetic record — it
passes the real provider data through (here the provider `"ip"` value
`"8.8.8.8"`), merely defaulting `"area"` to `"Ambattur"`; the result lacks
the `"hostname"` field every synthetic record carries and differs from the
synthetic record of this run's draws. -/
theorem get_ip_info_no_loc_passes_data_through :
    List.lookup "ip"
        (get_ip_info (some "1.2.3.4") (ProviderOutcome.ok provider_no_loc) rand0) =
      some (Val.vstr "8.8.8.8") ∧
    List.lookup "area"
        (get_ip_info (some "1.2.3.4") (ProviderOutcome.ok provider_no_loc) rand0) =
      some (Val.vstr "Ambattur") ∧
    List.lookup "hostname"
        (get_ip_info (some "1.2.3.4") (ProviderOutcome.ok provider_no_loc) rand0) =
      none ∧
    get_ip_info (some "1.2.3.4") (ProviderOutcome.ok provider_no_loc) rand0 ≠
      generate_fake_ip_info true rand0 := by
  refine ⟨rfl, rfl, rfl, fun h => ?_⟩
  have h2 : (none : Option Val) = some (Val.vstr "host-0.airtel.net.in") := by
    calc (none : Option Val)
        = List.lookup "hostname"
            (get_ip_info (some "1.2.3.4") (ProviderOutcome.ok provider_no_loc) rand0) :=
          rfl
      _ = List.lookup "hostname" (generate_fake_ip_info true rand0) := by rw [h]
      _ = some (Val.vstr "host-0.airtel.net.in") := rfl
  exact Option.noConfusion h2

/-- The fallback behaviour of `get_ip_info`, for one choice of IP input,
random draws, and provider dict (used by the C5 theorem and its witness):
the exception path returns exactly the synthetic record (random catalog
area, coordinate jittered by the drawn offsets, synthesized
ip/hostname/org/postal), while a successful response without a `"loc"` key
is passed through with `"area"` defaulted to `"Ambattur"`. -/
noncomputable def ExnFallbackSpec (ip : Option String) (r : RandDraws)
    (d : List (String × Val)) : Prop :=
  get_ip_info ip ProviderOutcome.exn r = generate_fake_ip_info true r ∧
  (∃ a ∈ CHENNAI_AREAS,
    List.lookup "area" (get_ip_info ip ProviderOutcome.exn r) =
      some (Val.vstr a.name) ∧
    ∃ la lo, List.lookup "loc" (get_ip_info ip ProviderOutcome.exn r) =
        some (Val.vloc la lo) ∧
      |la - a.latitude| ≤ 0.01 ∧ |lo - a.longitude| ≤ 0.01) ∧
  List.lookup "ip" (get_ip_info ip ProviderOutcome.exn r) =
    some (Val.vstr ("103." ++ toString r.o1 ++ "." ++ toString r.o2 ++ "." ++
      toString r.o3)) ∧
  List.lookup "hostname" (get_ip_info ip ProviderOutcome.exn r) =
    some (Val.vstr ("host-" ++ toString r.hostNum ++ ".airtel.net.in")) ∧
  List.lookup "org" (get_ip_info ip ProviderOutcome.exn r) =
    some (Val.vstr ("AS" ++ toString r.asn ++ " Bharti Airtel Ltd.")) ∧
  List.lookup "postal" (get_ip_info ip ProviderOutcome.exn r) =
    some (Val.vstr ("6000" ++ toString r.postalNum)) ∧
  (List.lookup "loc" d = none →
    get_ip_info ip (ProviderOutcome.ok d) r = setKey d "area" (Val.vstr "Ambattur"))

/-- C5 (amended): the synthetic fallback record — pseudo-random catalog
area, coordinate jittered by at most `±0.01` degrees per axis, synthesized
ip/hostname/org/postal — is produced exactly when the provider call raises
an exception; a successful response with a missing coordinate field is
instead passed through with `"area"` defaulted to `"Ambattur"`. -/
theorem get_ip_info_exception_synthesizes :
    ∀ (ip : Option String) (r : RandDraws) (d : List (String × Val)),
      |r.latOff| ≤ 0.01 → |r.lonOff| ≤ 0.01 → ExnFallbackSpec ip r d := by
  intro ip r d h1 h2
  refine ⟨rfl, fake_area_jitter r h1 h2, rfl, rfl, rfl, rfl, ?_⟩
  intro hd
  simp [get_ip_info, hd]

/-- Witness for C5 (amended) at the concrete draw `rand0` and the concrete
no-`"loc"` provider response. -/
theorem get_ip_info_exception_synthesizes_witness :
    |rand0.latOff| ≤ 0.01 ∧ |rand0.lonOff| ≤ 0.01 ∧
    ExnFallbackSpec (some "1.2.3.4") rand0 provider_no_loc := by
  have hb : |rand0.latOff| ≤ 0.01 := by
    simp [rand0, abs_of_nonneg]
    norm_num
  have hb2 : |rand0.lonOff| ≤ 0.01 := by
    simp [rand0, abs_of_nonneg]
    norm_num
  exact ⟨hb, hb2,
    get_ip_info_exception_synthesizes (some "1.2.3.4") rand0 provider_no_loc hb hb2⟩

/-- Two runs of the random stream that happen to draw identical values. -/
def randA : RandDraws := {}

/-- A second, separately created run drawing the same values as `randA`. -/
def randB : RandDraws := {}

/-- C9 counterexample: with the external service down, the pair of runs
`(randA, randB)` — both legal outcomes of the random stream — feed the same
IP to the resolver twice and obtain identical records with identical
jittered coordinates, refuting the claim that every pair of runs yields two
different synthetic records. -/
theorem get_ip_info_same_draws_same_record :
    get_ip_info (some "203.0.113.7") ProviderOutcome.exn randA =
      get_ip_info (some "203.0.113.7") ProviderOutcome.exn randB ∧
    List.lookup "loc" (get_ip_info (some "203.0.113.7") ProviderOutcome.exn randA) =
      List.lookup "loc" (get_ip_info (some "203.0.113.7") ProviderOutcome.exn randB) :=
  ⟨rfl, rfl⟩

/-- C9 (amended): for every IP input, when the external service is down the
returned synthetic record always names one of the seven catalog areas; every
one of the seven areas is a possible outcome (the set of possible area names
is the same seven-element set on every call); and the jittered coordinates
are drawn independently per call, so two runs with different draws can
produce different `"loc"` values — but runs with identical draws coincide. -/
theorem get_ip_info_fallback_name_set_and_variability :
    (∀ (ip : Option String) (r : RandDraws), ∃ a ∈ CHENNAI_AREAS,
      List.lookup "area" (get_ip_info ip ProviderOutcome.exn r) =
        some (Val.vstr a.name)) ∧
    (∀ (i : Fin 7) (ip : Option String), ∃ r : RandDraws,
      List.lookup "area" (get_ip_info ip ProviderOutcome.exn r) =
        some (Val.vstr ((CHENNAI_AREAS.getD (i : ℕ) dummyArea).name))) ∧
    (∃ r1 r2 : RandDraws,
      List.lookup "loc" (get_ip_info none ProviderOutcome.exn r1) ≠
        List.lookup "loc" (get_ip_info none ProviderOutcome.exn r2)) := by
  refine ⟨?_, ?_, ?_⟩
  · intro ip r
    have hlen : CHENNAI_AREAS.length = 7 := by simp [CHENNAI_AREAS]
    have hidx : (r.areaIdx : ℕ) < CHENNAI_AREAS.length := by
      rw [hlen]
      exact r.areaIdx.isLt
    refine ⟨CHENNAI_AREAS.getD (r.areaIdx : ℕ) dummyArea, ?_, rfl⟩
    rw [List.getD_eq_getElem CHENNAI_AREAS dummyArea hidx]
    exact List.getElem_mem hidx
  · intro i ip
    exact ⟨{ areaIdx := i }, rfl⟩
  · refine ⟨{}, { latOff := 1 }, fun h => ?_⟩
    have h1 : some (Val.vloc ((13.1143 : ℝ) + 0) ((80.1548 : ℝ) + 0)) =
        some (Val.vloc ((13.1143 : ℝ) + 1) ((80.1548 : ℝ) + 0)) := h
    have h2 := (Val.vloc.inj (Option.some.inj h1)).1
    norm_num at h2

/-- Embedding of the pydantic `LeadQualificationCriteria` model
(src/lead_manager.py, lines 372-379); the float threshold is modelled by a
rational. -/
structure LeadQualificationCriteria where
  min_company_size : Option ℕ := none
  target_industries : Option (List String) := none
  budget_threshold : Option ℚ := none
  decision_maker_titles : Option (List String) := none
  buying_timeframe : Option String := none
  required_fields : List String := ["email"]

/-- Embedding of the pydantic `Lead` model (src/lead_manager.py, lines
381-398).  The source model makes `email` required at the API boundary; the
spec's qualifier gates on the *presence* of each required field, so the
embedding keeps every field optional in order to express absence.  The
`location` and timestamp fields are omitted: no qualification criterion
consumes them. -/
structure Lead where
  email : Option String := none
  first_name : Option String := none
  last_name : Option String := none
  company : Option String := none
  company_size : Option ℕ := none
  industry : Option String := none
  job_title : Option String := none
  phone : Option String := none
  budget : Option ℚ := none
  buying_timeframe : Option String := none
  website : Option String := none
  source : Option String := none
  message : Option String := none

/-- Modelled from the spec: the process-wide default criteria instance
(`lead_manager.DEFAULT_QUALIFICATION`, referenced from src/main.py line 831
but not present under src/) — "required fields — defaults to requiring only
email". -/
def DEFAULT_QUALIFICATION : LeadQualificationCriteria := {}

/-- Whether a lead field, named as in `required_fields`, is present. -/
def leadFieldPresent (l : Lead) : String → Bool
  | "email" => l.email.isSome
  | "first_name" => l.first_name.isSome
  | "last_name" => l.last_name.isSome
  | "company" => l.company.isSome
  | "company_size" => l.company_size.isSome
  | "industry" => l.industry.isSome
  | "job_title" => l.job_title.isSome
  | "phone" => l.phone.isSome
  | "budget" => l.budget.isSome
  | "buying_timeframe" => l.buying_timeframe.isSome
  | "website" => l.website.isSome
  | "source" => l.source.isSome
  | "message" => l.message.isSome
  | _ => false

/-- The qualification verdict `(qualified, score, details)` of spec §4.5. -/
structure QualificationResult where
  qualified : Bool
  score : ℕ
  details : List String

/-- Modelled from the spec: `qualify_lead`/`process_lead` are called from
src/main.py (lines 774, 796, 854) but their definitions are not under src/.
Spec §4.5: each *configured* criterion (minimum company size, industry
membership, budget threshold, decision-maker title, buying timeframe)
contributes a pass/fail signal; the score is the percentage of configured
criteria passed (100 when none is configured); `required_fields` are hard
gates — absence of any required field forces `qualified = false` regardless
of score; otherwise the lead qualifies when the score reaches the 50-point
threshold (weighted-sum-then-threshold rule). -/
def qualify_lead (lead : Lead) (criteria : LeadQualificationCriteria) :
    QualificationResult :=
  let checks : List Bool := List.reduceOption
    [criteria.min_company_size.map fun m =>
      match lead.company_size with
      | some s => decide (m ≤ s)
      | none => false,
    criteria.target_industries.map fun ts =>
      match lead.industry with
      | some ind => ts.contains ind
      | none => false,
    criteria.budget_threshold.map fun b =>
      match lead.budget with
      | some bu => decide (b ≤ bu)
      | none => false,
    criteria.decision_maker_titles.map fun ts =>
      match lead.job_title with
      | some t => ts.contains t
      | none => false,
    criteria.buying_timeframe.map fun tf =>
      match lead.buying_timeframe with
      | some t => decide (t = tf)
      | none => false]
  let score := if checks.length = 0 then 100 else (100 * checks.count true) / checks.length
  let missing := criteria.required_fields.filter fun f => !(leadFieldPresent lead f)
  ⟨missing.isEmpty && decide (50 ≤ score), score,
    missing.map fun f => "missing required field: " ++ f⟩

/-- C1: every lead whose `email` field is absent receives a
`qualified = false` verdict under any criteria that list `"email"` among the
required fields (in particular the default criteria), regardless of every
other lead field and of the score the other criteria contribute. -/
theorem qualify_lead_missing_email_not_qualified :
    ∀ (lead : Lead) (criteria : LeadQualificationCriteria),
      lead.email = none → "email" ∈ criteria.required_fields →
      (qualify_lead lead criteria).qualified = false := by
  intro lead criteria hemail hreq
  have hpres : leadFieldPresent lead "email" = false := by
    simp [leadFieldPresent, hemail]
  have hmem : "email" ∈ criteria.required_fields.filter
      fun f => !(leadFieldPresent lead f) :=
    List.mem_filter.mpr ⟨hreq, by simp [hpres]⟩
  have hempty : (criteria.required_fields.filter
      fun f => !(leadFieldPresent lead f)).isEmpty = false := by
    rcases hfl : criteria.required_fields.filter fun f => !(leadFieldPresent lead f) with
      _ | ⟨x, xs⟩
    · rw [hfl] at hmem
      exact absurd hmem (List.not_mem_nil _)
    · rfl
  simp [qualify_lead, hempty]

/-- Witness for C1 at the all-absent lead and the default criteria. -/
theorem qualify_lead_missing_email_not_qualified_witness :
    Lead.email {} = none ∧ "email" ∈ DEFAULT_QUALIFICATION.required_fields ∧
    (qualify_lead {} DEFAULT_QUALIFICATION).qualified = false := by
  have hreq : "email" ∈ DEFAULT_QUALIFICATION.required_fields := by
    simp [DEFAULT_QUALIFICATION]
  exact ⟨rfl, hreq,
    qualify_lead_missing_email_not_qualified {} DEFAULT_QUALIFICATION rfl hreq⟩

/-- The ordered size mapping of `estimate_company_size_to_number`
(src/main.py, lines 1104-1109); Python dicts iterate in insertion order. -/
def size_mapping : List (String × ℕ) :=
  [("small", 25), ("medium", 100), ("large", 500), ("enterprise", 1000)]

/-- Model of Python `str.lower()` (character-wise lowercasing). -/
def strLower (s : String) : String := String.mk (s.data.map Char.toLower)

/-- Scan for an occurrence of `needle` at any position of the haystack. -/
def containsSubAux (needle : List Char) : List Char → Bool
  | [] => List.isPrefixOf needle []
  | c :: rest => List.isPrefixOf needle (c :: rest) || containsSubAux needle rest

/-- Model of the Python substring test `needle in hay`. -/
def containsSub (hay needle : String) : Bool := containsSubAux needle.data hay.data

/-- Embedding of `estimate_company_size_to_number` (src/main.py, lines
1099-1117).  `if not size_description` is Python falsiness: both `None` and
the empty string take the early `return None`; otherwise the mapping is
scanned in insertion order and the first key occurring in the lowercased
description wins. -/
def estimate_company_size_to_number : Option String → Option ℕ
  | none => none
  | some s =>
    if s = "" then none
    else size_mapping.findSome? fun kv =>
      if containsSub (strLower s) kv.1 then some kv.2 else none

/-- The size-bucket conversion as the claim words it: `none` exactly for an
absent input or a lowercase form containing none of the four substrings;
otherwise the number of the first substring present, checked in the fixed
order small, medium, large, enterprise. -/
def sizeSpec : Option String → Option ℕ
  | none => none
  | some s =>
    if containsSub (strLower s) "small" then some 25
    else if containsSub (strLower s) "medium" then some 100
    else if containsSub (strLower s) "large" then some 500
    else if containsSub (strLower s) "enterprise" then some 1000
    else none

/-- C10: the size-bucket conversion agrees everywhere with the claim's
first-match-in-fixed-order description (in particular it is `none` exactly
for `none` or no matching substring, and a description containing both
"small" and "large" maps to 25). -/
theorem estimate_company_size_matches_spec :
    (∀ sd : Option String, estimate_company_size_to_number sd = sizeSpec sd) ∧
    estimate_company_size_to_number (some "both Small and LARGE") = some 25 := by
  refine ⟨?_, rfl⟩
  intro sd
  cases sd with
  | none => rfl
  | some s =>
    by_cases hs : s = ""
    · subst hs
      rfl
    · simp only [estimate_company_size_to_number, sizeSpec, if_neg hs, size_mapping]
      cases h1 : containsSub (strLower s) "small" <;>
        cases h2 : containsSub (strLower s) "medium" <;>
          cases h3 : containsSub (strLower s) "large" <;>
            cases h4 : containsSub (strLower s) "enterprise" <;>
              simp [List.findSome?_cons, h1, h2, h3, h4]

/-- Abstract syntax of the regular-expression constructs occurring in the
four patterns of `extract_lead_info_from_chat` (src/main.py, lines
1042-1075): character classes, concatenation, alternation (earlier
alternative preferred), greedy `?`, greedy `*`, lazy `*?`, one capturing
group, the word boundary `\b`, and the end anchor `$`. -/
inductive Regex where
  | eps
  | cls (p : Char → Bool)
  | seq (a b : Regex)
  | alt (a b : Regex)
  | opt (a : Regex)
  | star (a : Regex)
  | starLazy (a : Regex)
  | grp (a : Regex)
  | wordB
  | eos

/-- Greedy `+` as one occurrence followed by a greedy `*`. -/
def Regex.plus (a : Regex) : Regex := .seq a (.star a)

/-- Lazy `+?` as one occurrence followed by a lazy `*?`. -/
def Regex.plusLazy (a : Regex) : Regex := .seq a (.starLazy a)

/-- The `\w` class: alphanumeric or underscore. -/
def isWordChar (c : Char) : Bool := c.isAlphanum || c == '_'

/-- Whether position `i` of `s` is a `\b` word boundary. -/
def atWordBoundary (s : List Char) (i : ℕ) : Bool :=
  let before :=
    match i with
    | 0 => false
    | j + 1 =>
      match s.get? j with
      | some c => isWordChar c
      | none => false
  let after :=
    match s.get? i with
    | some c => isWordChar c
    | none => false
  before != after

/-- Matcher state: current position, and the capture-group bounds if the
group has matched. -/
structure MatchState where
  pos : ℕ
  grp : Option (ℕ × ℕ)

/-- Backtracking matcher in continuation-passing style, mirroring the
preference order of CPython's `re` engine (greedy operators try the longer
alternative first, lazy ones the shorter, alternation is left-first).  The
fuel argument bounds the recursion depth; every use below supplies fuel
proportional to the input length, far above what these patterns consume. -/
def matchRe (s : List Char) :
    ℕ → Regex → MatchState → (MatchState → Option MatchState) → Option MatchState
  | 0, _, _, _ => none
  | fuel + 1, r, st, k =>
    match r with
    | .eps => k st
    | .cls p =>
      match s.get? st.pos with
      | some c => if p c then k { st with pos := st.pos + 1 } else none
      | none => none
    | .seq a b => matchRe s fuel a st fun st2 => matchRe s fuel b st2 k
    | .alt a b =>
      match matchRe s fuel a st k with
      | some res => some res
      | none => matchRe s fuel b st k
    | .opt a =>
      match matchRe s fuel a st k with
      | some res => some res
      | none => k st
    | .star a =>
      match matchRe s fuel a st (fun st2 => matchRe s fuel (.star a) st2 k) with
      | some res => some res
      | none => k st
    | .starLazy a =>
      match k st with
      | some res => some res
      | none => matchRe s fuel a st fun st2 => matchRe s fuel (.starLazy a) st2 k
    | .grp a =>
      matchRe s fuel a st fun st2 => k { pos := st2.pos, grp := some (st.pos, st2.pos) }
    | .wordB => if atWordBoundary s st.pos then k st else none
    | .eos => if st.pos = s.length then k st else none

/-- Model of `re.search`: try each start position left to right and return
the first position at which the pattern matches, with the end position and
capture of the preferred match there. -/
def search (fuel : ℕ) (r : Regex) (s : List Char) : Option (ℕ × MatchState) :=
  (List.range (s.length + 1)).findSome? fun i =>
    (matchRe s fuel r ⟨i, none⟩ some).map fun st => (i, st)

/-- A literal character. -/
def chLit (c : Char) : Regex := .cls fun x => x == c

/-- A literal string as a concatenation of literal characters. -/
def strRe (s : String) : Regex :=
  s.data.foldr (fun c acc => Regex.seq (chLit c) acc) .eps

/-- The email pattern of src/main.py line 1052:
the class `[\w.+-]+` then `@` then `[\w-]+` then `\.` then `[\w.-]+`. -/
def emailRe : Regex :=
  .seq (Regex.plus (.cls fun c => isWordChar c || c == '.' || c == '+' || c == '-'))
    (.seq (chLit '@')
      (.seq (Regex.plus (.cls fun c => isWordChar c || c == '-'))
        (.seq (chLit '.')
          (Regex.plus (.cls fun c => isWordChar c || c == '.' || c == '-')))))

def digitC : Regex := .cls Char.isDigit

/-- The separator class `[-.\s]`. -/
def sepC : Regex := .cls fun c => c == '-' || c == '.' || c.isWhitespace

def d3 : Regex := .seq digitC (.seq digitC digitC)

def d4 : Regex := .seq digitC (.seq digitC (.seq digitC digitC))

/-- Greedy `\d{1,3}` as one digit then two greedy optional digits (the
preference order 3, 2, 1 digits is preserved). -/
def d1to3 : Regex := .seq digitC (.seq (.opt digitC) (.opt digitC))

/-- The phone pattern of src/main.py line 1057:
`\b(?:\+\d{1,3}[-.\s]?)?\(?\d{3}\)?[-.\s]?\d{3}[-.\s]?\d{4}\b`. -/
def phoneRe : Regex :=
  .seq .wordB
    (.seq (.opt (.seq (chLit '+') (.seq d1to3 (.opt sepC))))
      (.seq (.opt (chLit '('))
        (.seq d3
          (.seq (.opt (chLit ')'))
            (.seq (.opt sepC)
              (.seq d3
                (.seq (.opt sepC)
                  (.seq d4 .wordB))))))))

def upperC : Regex := .cls Char.isUpper

def lowerC : Regex := .cls Char.isLower

/-- Greedy `\s+`. -/
def spacePlus : Regex := Regex.plus (.cls Char.isWhitespace)

/-- Greedy `[:\s]+`. -/
def colonSpacePlus : Regex := Regex.plus (.cls fun c => c == ':' || c.isWhitespace)

/-- The name pattern of src/main.py line 1062:
`(?:I am|my name is|name[:\s]+)\s+([A-Z][a-z]+(?:\s+[A-Z][a-z]+)?)`. -/
def nameRe : Regex :=
  .seq (.alt (strRe "I am")
        (.alt (strRe "my name is") (.seq (strRe "name") colonSpacePlus)))
    (.seq spacePlus
      (.grp (.seq upperC (.seq (Regex.plus lowerC)
        (.opt (.seq spacePlus (.seq upperC (Regex.plus lowerC))))))))

/-- The company pattern of src/main.py line 1071:
`(?:company[:\s]+|work(?:ing)?\s+(?:at|for)|from)\s+([A-Z][A-Za-z0-9\s&]+?)(?:\.|\s|$)`. -/
def companyRe : Regex :=
  .seq (.alt (.seq (strRe "company") colonSpacePlus)
        (.alt (.seq (strRe "work")
                (.seq (.opt (strRe "ing"))
                  (.seq spacePlus (.alt (strRe "at") (strRe "for")))))
          (strRe "from")))
    (.seq spacePlus
      (.seq (.grp (.seq upperC (Regex.plusLazy (.cls fun c =>
              c.isAlpha || c.isDigit || c.isWhitespace || c == '&'))))
        (.alt (chLit '.') (.alt (.cls Char.isWhitespace) .eos))))

/-- Model of Python `str.split()` with no argument: split on whitespace
runs, dropping empty pieces. -/
def wordsAux : List Char → List Char → List String
  | [], acc => if acc.isEmpty then [] else [String.mk acc.reverse]
  | c :: rest, acc =>
    if c.isWhitespace then
      if acc.isEmpty then wordsAux rest []
      else String.mk acc.reverse :: wordsAux rest []
    else wordsAux rest (c :: acc)

/-- Model of Python `str.strip()`: drop leading and trailing whitespace. -/
def stripChars (cs : List Char) : List Char :=
  ((cs.dropWhile Char.isWhitespace).reverse.dropWhile Char.isWhitespace).reverse

/-- The substring of `s` from position `a` (inclusive) to `b` (exclusive). -/
def sliceStr (s : List Char) (a b : ℕ) : String := String.mk ((s.drop a).take (b - a))

/-- Embedding of `extract_lead_info_from_chat` (src/main.py, lines
1042-1075): the four searches run independently, each match inserting its
fields into the result dict in source order (email, phone, first/last name,
company); a failed search simply omits its fields. -/
def extract_lead_info_from_chat (message : String) : List (String × String) :=
  let s := message.data
  let fuel := (s.length + 1) * 128
  let emailPart :=
    match search fuel emailRe s with
    | some (a, st) => [("email", sliceStr s a st.pos)]
    | none => []
  let phonePart :=
    match search fuel phoneRe s with
    | some (a, st) => [("phone", sliceStr s a st.pos)]
    | none => []
  let namePart :=
    match search fuel nameRe s with
    | some (_, st) =>
      match st.grp with
      | some (gs, ge) =>
        match wordsAux ((s.drop gs).take (ge - gs)) [] with
        | [] => []
        | w :: rest =>
          ("first_name", w) ::
            (if rest.isEmpty then [] else [("last_name", (w :: rest).getLastD "")])
      | none => []
    | none => []
  let compPart :=
    match search fuel companyRe s with
    | some (_, st) =>
      match st.grp with
      | some (gs, ge) =>
        [("company", String.mk (stripChars ((s.drop gs).take (ge - gs))))]
      | none => []
    | none => []
  emailPart ++ phonePart ++ namePart ++ compPart

/-- C8: the lead extractor applied to
`"my name is John Doe, email john@doe.com"` yields exactly the email
`john@doe.com`, first name `John` and last name `Doe` (no phone, no
company); applied to `"no contact info here"` it yields the empty field
set. -/
theorem extract_lead_info_concrete_examples :
    extract_lead_info_from_chat "my name is John Doe, email john@doe.com" =
      [("email", "john@doe.com"), ("first_name", "John"), ("last_name", "Doe")] ∧
    extract_lead_info_from_chat "no contact info here" = [] :=
  ⟨by decide, by decide⟩
